import Mathlib

/-!
Shallow embedding of the fargonauts/CopyCat-1 workspace-structure code:
`copycat/bond.py` and `copycat/coderack/codelets/correspondence.py`.

Python numbers are modelled by `Int`/`ℚ`, Python `None`/values by `Option`,
and Python runtime errors (`NameError` raised on reading a never-assigned
name) by `Except PyExc`.  Letter-objects, slipnet nodes, concept mappings
and the `Correspondence` class are not part of the two embedded files;
their attributes read by the embedded code are modelled from the spec
(§3, §4.1, §4.2): string positions are 0-based indices from the left, and
a slipnet node carries its name and its fixed degree of association.
-/

/-- Python runtime errors raised by the embedded code.  `nameError v` models
`NameError` on reading the unbound local or global name `v`. -/
inductive PyExc where
  | nameError (v : String)
deriving DecidableEq

/-- Modelled from the spec: a slipnet node (bond category, bond facet or
descriptor), identified by its name and carrying the category's fixed
"degree of association" (§4.1).  `copycat/slipnet.py` is not among the
embedded files. -/
structure SlipNode where
  name : String
  degree_of_association : ℚ
deriving DecidableEq

/-- Kind tag for workspace objects: Python distinguishes the `Letter` and
`Group` classes via `type(...)` in `Bond.update_internal_strength`. -/
inductive ObjKind where
  | letter
  | group
deriving DecidableEq

/-- Modelled from the spec: a letter-object (§3) with its owning-string
positions (0-based from the left, §8), its class tag, and the built
correspondence currently on it, if any (referenced by an identifier, §9).
`copycat/letter.py` is not among the embedded files; only the attributes
read by `bond.py` are modelled. -/
structure WObject where
  id : Nat
  kind : ObjKind
  left_string_position : Int
  right_string_position : Int
  correspondence : Option Nat
deriving DecidableEq

/-- Modelled from the spec: the group a bond may belong to, reduced to the
one attribute `Bond.happiness` reads — its total strength (§4.1). -/
structure WGroup where
  total_strength : Int
deriving DecidableEq

/-- The `Bond` structure: the fields assigned in `Bond.__init__`
(bond.py lines 20-46), plus the `group` attribute that `Bond.happiness`
reads (held by the `Structure` base class, which is not among the embedded
files; a fresh structure belongs to no group). The owning string is
represented by its length, the only attribute of it the embedded methods
read. -/
structure Bond where
  from_object : WObject
  to_object : WObject
  bond_category : SlipNode
  direction_category : Option String
  string_length : Nat
  left_string_position : Int
  right_string_position : Int
  bond_facet : SlipNode
  from_object_descriptor : SlipNode
  to_object_descriptor : SlipNode
  left_object : WObject
  right_object : WObject
  group : Option WGroup
deriving DecidableEq

/-- `Bond.__init__` (bond.py lines 20-46): `direction_category` stays `None`
for the sameness category, otherwise it is `'left'` when `from_object` is at
a strictly smaller left string position than `to_object`, else `'right'`;
`left_string_position` and `right_string_position` are both the `min` of the
endpoints' respective positions (the source takes `min` on both lines);
`left_object`/`right_object` order the endpoints by left string position. -/
def Bond.init (string_length : Nat) (from_object to_object : WObject)
    (bond_category bond_facet from_object_descriptor to_object_descriptor : SlipNode) :
    Bond where
  from_object := from_object
  to_object := to_object
  bond_category := bond_category
  direction_category :=
    if bond_category.name = "sameness" then none
    else if from_object.left_string_position < to_object.left_string_position then some "left"
    else some "right"
  string_length := string_length
  left_string_position := min from_object.left_string_position to_object.left_string_position
  right_string_position := min from_object.right_string_position to_object.right_string_position
  bond_facet := bond_facet
  from_object_descriptor := from_object_descriptor
  to_object_descriptor := to_object_descriptor
  left_object :=
    if from_object.left_string_position < to_object.left_string_position then from_object
    else to_object
  right_object :=
    if from_object.left_string_position < to_object.left_string_position then to_object
    else from_object
  group := none

/-- `Bond.__eq__` (bond.py lines 48-52): two bonds compare equal exactly when
their `from_object`, `to_object`, `bond_category` and `direction_category`
agree; `bond_facet` and the two descriptors are not consulted. -/
def Bond.py_eq (a b : Bond) : Bool :=
  decide (a.from_object = b.from_object) &&
  decide (a.to_object = b.to_object) &&
  decide (a.bond_category = b.bond_category) &&
  decide (a.direction_category = b.direction_category)

/-- `Bond.is_leftmost_in_string` (bond.py lines 60-61). -/
def Bond.is_leftmost_in_string (b : Bond) : Bool :=
  decide (b.left_string_position = 0)

/-- `Bond.is_rightmost_in_string` (bond.py lines 63-64): the source compares
`right_string_position` with `1 - self.string.length`. -/
def Bond.is_rightmost_in_string (b : Bond) : Bool :=
  decide (b.right_string_position = 1 - (b.string_length : Int))

/-- Python 2 `round`: round half away from zero. -/
def pyRound (q : ℚ) : Int :=
  if q < 0 then -⌊-q + 1/2⌋ else ⌊q + 1/2⌋

/-- `Bond.update_internal_strength` (bond.py lines 193-208), read with the
intended `==` on the line `if self.bond_facet.name = 'letter_category':`
(as written, that line is a Python syntax error — an assignment in a
condition — so the source function cannot run at all).  The member
compatibility factor is 1 when the endpoints are instances of the same
class and 0.7 otherwise; the facet factor is 1 for the letter-category
facet and 0.7 otherwise; the result is `min(100, round(...))` of the
product with the bond category's degree of association
(`bond_degree_of_assocition` on the slipnet node, modelled from the spec
as the category's fixed degree of association). -/
def Bond.update_internal_strength (b : Bond) : Int :=
  let member_compatibility_factor : ℚ := if b.from_object.kind = b.to_object.kind then 1 else 7/10
  let bond_facet_factor : ℚ := if b.bond_facet.name = "letter_category" then 1 else 7/10
  let association : ℚ := b.bond_category.degree_of_association
  min 100 (pyRound (member_compatibility_factor * bond_facet_factor * association))

/-- Spec-side definition for §4.1's words: "compatibility factor 1.0 if
endpoint kinds match else 0.7, times 1.0 if the discriminating facet is the
primary letter-category facet else 0.7, times the bond category's fixed
degree of association, rounded and clamped to [0,100]". -/
def spec_internal_strength (same_kind primary_facet : Bool) (association : ℚ) : Int :=
  let compatibility : ℚ := if same_kind then 1 else 7/10
  let facet_factor : ℚ := if primary_facet then 1 else 7/10
  max 0 (min 100 (pyRound (compatibility * facet_factor * association)))

/-- `Bond.happiness` (bond.py lines 219-224): when `self.group` is set the
source evaluates `group.total_strength`, but `group` is a bare name that is
bound neither locally nor at module level (the source's own FIXME comment
flags it), so Python raises `NameError`; when `self.group` is unset the
method returns 0. -/
def Bond.happiness (b : Bond) : Except PyExc Int :=
  match b.group with
  | some _ => Except.error (PyExc.nameError "group")
  | none => Except.ok 0

/-- `Bond.unhappiness` (bond.py lines 226-227): `100 - self.happiness()`,
propagating any error raised by `happiness`. -/
def Bond.unhappiness (b : Bond) : Except PyExc Int :=
  match b.happiness with
  | Except.ok h => Except.ok (100 - h)
  | Except.error e => Except.error e

/-- `Bond.get_incompatible_correspondences` (bond.py lines 121-191),
faithful to its control flow.  On the leftmost branch: when the left
object has no correspondence the source executes a bare `return`
(yielding Python `None` and never reaching the rightmost branch); when a
correspondence is present, after the loop over its concept mappings the
source evaluates `if not string_position_cateogry_conept_mapping:` — a
misspelled name that is never assigned anywhere — so Python raises
`NameError` there.  The rightmost branch is identical in shape.  Only
when neither positional test fires does the function return the (still
empty) accumulator list.  Correspondences are referenced by identifier. -/
def Bond.get_incompatible_correspondences (b : Bond) :
    Except PyExc (Option (List Nat)) :=
  if b.is_leftmost_in_string then
    match b.left_object.correspondence with
    | none => Except.ok none
    | some _ => Except.error (PyExc.nameError "string_position_cateogry_conept_mapping")
  else if b.is_rightmost_in_string then
    match b.right_object.correspondence with
    | none => Except.ok none
    | some _ => Except.error (PyExc.nameError "string_position_cateogry_conept_mapping")
  else
    Except.ok (some [])

/-- Sample letter at position 0 of a two-letter string. -/
def letterA : WObject :=
  { id := 0, kind := ObjKind.letter, left_string_position := 0,
    right_string_position := 0, correspondence := none }

/-- Sample letter at position 1 of a two-letter string. -/
def letterB : WObject :=
  { id := 1, kind := ObjKind.letter, left_string_position := 1,
    right_string_position := 1, correspondence := none }

/-- The successor bond category. -/
def successor_category : SlipNode :=
  { name := "successor", degree_of_association := 50 }

/-- The letter-category bond facet. -/
def letter_category_facet : SlipNode :=
  { name := "letter_category", degree_of_association := 0 }

/-- An alternative bond facet. -/
def length_facet : SlipNode :=
  { name := "length", degree_of_association := 0 }

/-- Descriptor of the letter a. -/
def descA : SlipNode :=
  { name := "a", degree_of_association := 0 }

/-- Descriptor of the letter b. -/
def descB : SlipNode :=
  { name := "b", degree_of_association := 0 }

/-- A successor bond from `letterA` to `letterB` in a string of length 2. -/
def bondAB : Bond :=
  Bond.init 2 letterA letterB successor_category letter_category_facet descA descB

/-- The same endpoints and category as `bondAB` but a different facet and
swapped descriptors. -/
def bondAB_alt : Bond :=
  Bond.init 2 letterA letterB successor_category length_facet descB descA

/-- `bondAB` placed inside a group of total strength 40. -/
def bond_in_group : Bond :=
  { bondAB with group := some { total_strength := 40 } }

/-- `letterA` with a built correspondence (id 7) on it. -/
def letterA_corr : WObject :=
  { letterA with correspondence := some 7 }

/-- A successor bond whose left object carries a correspondence. -/
def bondAB_corr : Bond :=
  Bond.init 2 letterA_corr letterB successor_category letter_category_facet descA descB

/-- Modelled from the spec: a concept mapping (§3), shared by reference and
carrying a "relevant" flag that later changes may invalidate.  The concept
mapping class is not among the embedded files; mappings are identified by
an id, the only further attribute the builder reads being `relevant`. -/
structure ConceptMap where
  id : Nat
  relevant : Bool
deriving DecidableEq

/-- Modelled from the spec: `Correspondence.mapping_present` — whether an
equivalent concept mapping is already among the given correspondence's
concept mappings (`correspondence.py` is not among the embedded files). -/
def mapping_present (mappings : List ConceptMap) (m : ConceptMap) : Bool :=
  mappings.any (fun x => decide (x = m))

/-- Input of one `CorrespondenceBuilder.run` (correspondence.py lines
91-189), with every value the run reads from the workspace or from the
missing `Correspondence` class supplied as a field: presence of the two
objects (lines 102-106), the equivalent built correspondence if any (line
109), the proposal's concept mappings (lines 112-125), the incompatible
correspondences (line 131, the source's `incompatible_corresondences()`
call on the missing class), the edge tests and incompatible bond, its
group and the incompatible rule (lines 140-162), and the outcomes of the
successive `fight_it_out` coin flips in call order (`fights`), since a
fight only draws from the random source and mutates nothing. -/
structure BuilderCtx where
  object1_present : Bool
  object2_present : Bool
  existing_correspondence : Option Nat
  concept_mappings : List ConceptMap
  incompatible_correspondences : List Nat
  object1_at_edge : Bool
  object2_at_edge : Bool
  incompatible_bond : Option Nat
  incompatible_bond_group : Option Nat
  incompatible_rule : Option Nat
  fights : List Bool
deriving DecidableEq

/-- Observable workspace effects of one `CorrespondenceBuilder.run`:
structures broken, whether the correspondence was built, the merge target
and the concept mappings added to it, whether the proposal was removed
from the proposed-correspondences bookkeeping (lines 111/128), and how
many `fight_it_out` contests were performed. -/
structure BuildEffects where
  broken_structures : List Nat
  built : Bool
  merged_into : Option Nat
  added_mappings : List ConceptMap
  deleted_proposed : Bool
  fights_performed : Nat
deriving DecidableEq

/-- Effects of a run that returns before reaching line 128. -/
def noEffects : BuildEffects :=
  { broken_structures := [], built := false, merged_into := none,
    added_mappings := [], deleted_proposed := false, fights_performed := 0 }

/-- Effects of a run that returns after line 128 with no further action. -/
def fizzleAfterDelete : BuildEffects :=
  { noEffects with deleted_proposed := true }

/-- Index of the first lost fight among the first `count` outcomes, if any
(the source's loop at lines 132-137 returns at the first loss). -/
def firstLostFight (fights : List Bool) (count : Nat) : Option Nat :=
  (List.range count).find? (fun i => !(fights.getD i false))

/-- `CorrespondenceBuilder.run` (correspondence.py lines 91-189), faithful
to its control flow.  Line 93 binds the second argument to the local name
`flip_obj2`; the function later reads `flip_object2`, which is bound
nowhere, so Python raises `NameError` wherever that name is evaluated:
at line 105 when `object2` is absent (when `object1` is absent the `or`
short-circuits first and the run fizzles), and unconditionally at line
155 (`if flip_object2:`), which every path surviving the correspondence
and bond fights reaches.  The break/build phase of lines 166-189 is
therefore unreachable.  Earlier exits: the merge branch at lines 108-120
(note line 117 tests `correspondence.mapping_present(mapping)` — presence
in the proposal itself, not in `existing_correspondence`), the relevance
fizzle at lines 122-125, and a return at each lost fight. -/
def builder_run (ctx : BuilderCtx) : Except PyExc BuildEffects :=
  if !ctx.object1_present then Except.ok noEffects
  else if !ctx.object2_present then Except.error (PyExc.nameError "flip_object2")
  else
    match ctx.existing_correspondence with
    | some c =>
      Except.ok { broken_structures := [], built := false, merged_into := some c,
                  added_mappings := ctx.concept_mappings.filter
                    (fun m => !(mapping_present ctx.concept_mappings m)),
                  deleted_proposed := true, fights_performed := 0 }
    | none =>
      if ctx.concept_mappings.any (fun m => !m.relevant) then Except.ok noEffects
      else
        match firstLostFight ctx.fights ctx.incompatible_correspondences.length with
        | some i => Except.ok { fizzleAfterDelete with fights_performed := i + 1 }
        | none =>
          if ctx.object1_at_edge && ctx.object2_at_edge then
            match ctx.incompatible_bond with
            | some _ =>
              if !(ctx.fights.getD ctx.incompatible_correspondences.length false) then
                Except.ok { fizzleAfterDelete with
                  fights_performed := ctx.incompatible_correspondences.length + 1 }
              else
                match ctx.incompatible_bond_group with
                | some _ =>
                  if !(ctx.fights.getD (ctx.incompatible_correspondences.length + 1) false) then
                    Except.ok { fizzleAfterDelete with
                      fights_performed := ctx.incompatible_correspondences.length + 2 }
                  else Except.error (PyExc.nameError "flip_object2")
                | none => Except.error (PyExc.nameError "flip_object2")
            | none => Except.error (PyExc.nameError "flip_object2")
          else Except.error (PyExc.nameError "flip_object2")

/-- A builder run that wins every required fight: both objects present, no
equivalent correspondence, all mappings relevant, one incompatible
correspondence, an incompatible edge bond inside a group, and every fight
outcome a win. -/
def ctxAllWin : BuilderCtx :=
  { object1_present := true, object2_present := true,
    existing_correspondence := none,
    concept_mappings := [{ id := 3, relevant := true }],
    incompatible_correspondences := [4],
    object1_at_edge := true, object2_at_edge := true,
    incompatible_bond := some 9, incompatible_bond_group := some 11,
    incompatible_rule := none,
    fights := [true, true, true] }

/-- The same builder run as `ctxAllWin` except that the third fight (against
the incompatible bond's group) is lost. -/
def ctxLoseFight : BuilderCtx :=
  { ctxAllWin with fights := [true, true, false] }

/-- A builder run against an equivalent existing correspondence (id 1),
where the proposal carries one concept mapping. -/
def ctxMerge : BuilderCtx :=
  { ctxAllWin with existing_correspondence := some 1 }

/-- The effects of running the builder on `ctxMerge`. -/
def effMerge : BuildEffects :=
  { broken_structures := [], built := false, merged_into := some 1,
    added_mappings := [], deleted_proposed := true, fights_performed := 0 }

/-- A concept mapping of one scout-visible correspondence proposal:
its first description type (modelled by the slipnet node's name) and its
distinguishing flag. -/
structure ScoutMapping where
  description_type1 : String
  is_distinguishing : Bool
deriving DecidableEq

/-- The value a scout hands to `propose_correspondence`: whether the flip
branch replaced the second object, and the concept mappings proposed. -/
structure ScoutProposal where
  flipped : Bool
  mappings : List ScoutMapping
deriving DecidableEq

/-- Input of one `CorrespondenceBottomUpScout.run` (correspondence.py lines
32-84): span flags of the two chosen objects (the probabilistic choices of
lines 34-35 are inputs), the concept mappings computed at lines 42-44, the
outcome of each temperature-adjusted slippability coin flip in order
(lines 50-54), the flip-branch guards of lines 72-76 (`all_opposite`
stands for the result of the slipnet call
`are_all_opposite_concept_mappings(possible_opposite_mappings)` at line
75; `copycat/slipnet.py` is not among the embedded files), and the
mappings recomputed after a flip (line 80, a call on the missing
`Codelet` class). -/
structure ScoutCtx where
  object1_spans_whole_string : Bool
  object2_spans_whole_string : Bool
  mappings : List ScoutMapping
  slip_coin : List Bool
  object1_is_string_spanning_group : Bool
  object2_is_string_spanning_group : Bool
  plato_opposite_active : Bool
  all_opposite : Bool
  flipped_mappings : List ScoutMapping
deriving DecidableEq

/-- `CorrespondenceBottomUpScout.run` (correspondence.py lines 32-84),
after the two probabilistic object choices.  Returning `none` is a fizzle:
the run reaches `propose_correspondence` (line 84) on no other path, so a
fizzle proposes nothing and posts no codelet.  Description types are
modelled by their slipnet node names. -/
def bottom_up_scout_run (ctx : ScoutCtx) : Option ScoutProposal :=
  if ctx.object1_spans_whole_string != ctx.object2_spans_whole_string then none
  else if ctx.mappings.isEmpty then none
  else
    let possible := (List.range ctx.mappings.length).any
      (fun i => ctx.slip_coin.getD i false)
    if !possible then none
    else
      let distinguished_mappings := ctx.mappings.filter (fun m => m.is_distinguishing)
      if distinguished_mappings.isEmpty then none
      else
        let _possible_opposite_mappings := distinguished_mappings.filter
          (fun m => m.description_type1 != "plato_string_position_category" &&
                    m.description_type1 != "plato_bond_facet")
        let opposite_descriptions := ctx.mappings.map (fun m => m.description_type1)
        if ctx.object1_is_string_spanning_group &&
           ctx.object2_is_string_spanning_group &&
           !ctx.plato_opposite_active &&
           ctx.all_opposite &&
           opposite_descriptions.contains "plato_direction_category" then
          some { flipped := true, mappings := ctx.flipped_mappings }
        else
          some { flipped := false, mappings := ctx.mappings }

/-- Modelled from the spec: an object of the target string as read by
`CorrespondenceImportantObjectScout` — the descriptors of its relevant
descriptions and its whole-string-span flag. -/
structure TargetObj where
  descriptors : List String
  spans_whole_string : Bool
deriving DecidableEq

/-- The candidate collection loop of correspondence.py lines 220-224: every
target-string object is appended once per relevant description whose
descriptor matches. -/
def candidatesOf (objs : List TargetObj) (d : String) : List TargetObj :=
  (objs.map (fun o => (o.descriptors.filter (fun x => decide (x = d))).map
    (fun _ => o))).flatten

/-- The slippage substitution loop of correspondence.py lines 214-217: each
matching slippage in turn overwrites `object2_descriptor`, so the last
match wins. -/
def applySlippages (slippages : List (String × String)) (d : String) : String :=
  slippages.foldl (fun acc s => if s.1 = d then s.2 else acc) d

/-- The salience-weighted choice of correspondence.py lines 227-229,
with the chosen position supplied as an input; `select_list_position`
returns a position of the non-empty list, modelled by reducing the input
index modulo the list length. -/
def chooseCandidate (cands : List TargetObj) (idx : Nat) : TargetObj :=
  cands.getD (idx % cands.length) { descriptors := [], spans_whole_string := false }

/-- Input of one `CorrespondenceImportantObjectScout.run` (correspondence.py
lines 203-278): the chosen relevant distinguishing description's descriptor
if any (line 208), the workspace slippages (line 215), the target string's
objects (line 221), the chosen list position (line 228), the first object's
span flag, the concept mappings of line 236 and the slippability coin
outcomes of lines 243-248. -/
structure ImpCtx where
  object1_description_descriptor : Option String
  slippages : List (String × String)
  target_objects : List TargetObj
  chosen_index : Nat
  object1_spans_whole_string : Bool
  mappings : List ScoutMapping
  slip_coin : List Bool
deriving DecidableEq

/-- `CorrespondenceImportantObjectScout.run` (correspondence.py lines
203-278), after the probabilistic choice of `object1`.  Once past the
distinguishing check of lines 252-255 (line 253 collects the results of
`m.distinguishing()` calls, a list that is non-empty whenever `mappings`
is), the loop header at line 259 reads `distinguishing_mappings` — a name
bound nowhere (line 253 bound `distinguished_mappings`) — so Python raises
`NameError` there and no proposal is ever reached on that path. -/
def important_object_scout_run (ctx : ImpCtx) : Except PyExc (Option ScoutProposal) :=
  match ctx.object1_description_descriptor with
  | none => Except.ok none
  | some object1_descriptor =>
    let object2_descriptor := applySlippages ctx.slippages object1_descriptor
    let object2_candidates := candidatesOf ctx.target_objects object2_descriptor
    if object2_candidates.isEmpty then Except.ok none
    else
      let object2 := chooseCandidate object2_candidates ctx.chosen_index
      if ctx.object1_spans_whole_string != object2.spans_whole_string then Except.ok none
      else if ctx.mappings.isEmpty then Except.ok none
      else
        let possible := (List.range ctx.mappings.length).any
          (fun i => ctx.slip_coin.getD i false)
        if !possible then Except.ok none
        else Except.error (PyExc.nameError "distinguishing_mappings")

/-- A bottom-up scout run whose first chosen object spans its whole string
while the second does not. -/
def scoutCtxMismatch : ScoutCtx :=
  { object1_spans_whole_string := true, object2_spans_whole_string := false,
    mappings := [{ description_type1 := "plato_letter_category", is_distinguishing := true }],
    slip_coin := [true],
    object1_is_string_spanning_group := false,
    object2_is_string_spanning_group := false,
    plato_opposite_active := false, all_opposite := false,
    flipped_mappings := [] }

/-- An important-object scout run whose chosen target object does not span
its string while the first object does. -/
def impCtxMismatch : ImpCtx :=
  { object1_description_descriptor := some "leftmost",
    slippages := [],
    target_objects := [{ descriptors := ["leftmost"], spans_whole_string := false }],
    chosen_index := 0,
    object1_spans_whole_string := true,
    mappings := [{ description_type1 := "plato_letter_category", is_distinguishing := true }],
    slip_coin := [true] }

/-- C4: for every bond built by `Bond.__init__`, `direction_category` is
`None` iff the bond category is the sameness category, and otherwise it is
`'left'` iff `from_object` is left of `to_object` in string order. -/
theorem C4_direction_category_iff (L : Nat) (o1 o2 : WObject)
    (cat facet d1 d2 : SlipNode) :
    ((Bond.init L o1 o2 cat facet d1 d2).direction_category = none ↔
      cat.name = "sameness") ∧
    (cat.name ≠ "sameness" →
      ((Bond.init L o1 o2 cat facet d1 d2).direction_category = some "left" ↔
        o1.left_string_position < o2.left_string_position)) := by
  simp only [Bond.init]
  constructor
  · split_ifs <;> simp_all
  · intro h
    split_ifs <;> simp_all

/-- Witness for C4 at a concrete input: the successor bond from `letterA`
to `letterB` is directed `'left'`. -/
theorem C4_direction_category_witness :
    (Bond.init 2 letterA letterB successor_category letter_category_facet
      descA descB).direction_category = some "left" :=
  ((C4_direction_category_iff 2 letterA letterB successor_category
    letter_category_facet descA descB).2 (by decide)).mpr (by decide)

/-- C5: evaluation of the source at the bond from position 0 to position 1
of a two-letter string: the bond's span ends at position 1 = L - 1, the
string's end, yet `is_rightmost_in_string` is `false` (the source compares
the `min` of the endpoints' right positions with `1 - length`);
`is_leftmost_in_string` is `true` as claimed. -/
theorem C5_rightmost_check_fails :
    bondAB.is_leftmost_in_string = true ∧
    max letterA.right_string_position letterB.right_string_position = (2 : Int) - 1 ∧
    bondAB.is_rightmost_in_string = false := by
  decide

/-- C6: for every bond built by `Bond.__init__`, regardless of which
endpoint was passed as `from_object` and which as `to_object`, the derived
`left_object` is at a left string position no greater than that of the
derived `right_object`. -/
theorem C6_left_right_ordered (L : Nat) (o1 o2 : WObject)
    (cat facet d1 d2 : SlipNode) :
    (Bond.init L o1 o2 cat facet d1 d2).left_object.left_string_position ≤
      (Bond.init L o1 o2 cat facet d1 d2).right_object.left_string_position := by
  simp only [Bond.init]
  split_ifs <;> omega

/-- C7: evaluation of the source: on a bond that belongs to a group (total
strength 40) both `happiness` and `unhappiness` raise `NameError` on the
unbound name `group` instead of returning that strength; on a bond with no
group, `happiness` is 0 and `unhappiness` is 100. -/
theorem C7_happiness_raises :
    Bond.happiness bond_in_group = Except.error (PyExc.nameError "group") ∧
    Bond.unhappiness bond_in_group = Except.error (PyExc.nameError "group") ∧
    Bond.happiness bondAB = Except.ok 0 ∧
    Bond.unhappiness bondAB = Except.ok 100 := by
  refine ⟨rfl, rfl, rfl, rfl⟩

/-- C10: bond equality is insensitive to the bond facet and the endpoint
descriptors: whenever two bonds agree on `from_object`, `to_object`,
`bond_category` and `direction_category`, `Bond.__eq__` holds, with no
constraint on their facets or descriptors. -/
theorem C10_bond_eq_ignores_facet (b1 b2 : Bond)
    (h1 : b1.from_object = b2.from_object)
    (h2 : b1.to_object = b2.to_object)
    (h3 : b1.bond_category = b2.bond_category)
    (h4 : b1.direction_category = b2.direction_category) :
    Bond.py_eq b1 b2 = true := by
  simp [Bond.py_eq, h1, h2, h3, h4]

/-- Witness for C10 at a concrete input: `bondAB` and `bondAB_alt` differ
in facet and descriptors yet compare equal. -/
theorem C10_bond_eq_witness : Bond.py_eq bondAB bondAB_alt = true :=
  C10_bond_eq_ignores_facet bondAB bondAB_alt rfl rfl rfl rfl

/-- C2: evaluation of the source: on the leftmost bond `bondAB` whose left
object has no correspondence, `get_incompatible_correspondences` yields
Python `None` — aborting the whole check instead of letting that side
contribute nothing and evaluating the right end — and on `bondAB_corr`,
whose left object does carry a correspondence, it raises `NameError` on
the misspelled, never-assigned name. -/
theorem C2_incompatible_correspondences_aborts :
    Bond.get_incompatible_correspondences bondAB = Except.ok none ∧
    Bond.get_incompatible_correspondences bondAB_corr =
      Except.error (PyExc.nameError "string_position_cateogry_conept_mapping") := by
  refine ⟨rfl, rfl⟩

theorem pyRound_nonneg (q : ℚ) (h : 0 ≤ q) : 0 ≤ pyRound q := by
  unfold pyRound
  rw [if_neg (by linarith)]
  exact Int.le_floor.mpr (by push_cast; linarith)

theorem min100_eq_clamp (q : ℚ) (h : 0 ≤ q) :
    min 100 (pyRound q) = max 0 (min 100 (pyRound q)) := by
  rw [max_eq_right (le_min (by norm_num) (pyRound_nonneg q h))]

/-- C3: under the intended reading of the syntax-slip line, for every bond
whose category's degree of association is nonnegative,
`update_internal_strength` equals the spec's formula: compatibility factor
1 if the endpoint kinds match else 0.7, times 1 if the facet is the
letter-category facet else 0.7, times the degree of association, rounded
and clamped to [0,100]; as a Lean function it is pure, so the value
depends only on the bond's own attributes. -/
theorem C3_internal_strength_matches_spec (b : Bond)
    (h : 0 ≤ b.bond_category.degree_of_association) :
    Bond.update_internal_strength b =
      spec_internal_strength (b.from_object.kind == b.to_object.kind)
        (b.bond_facet.name == "letter_category")
        b.bond_category.degree_of_association := by
  have hprod : 0 ≤ (if b.from_object.kind = b.to_object.kind then (1 : ℚ) else 7/10) *
      (if b.bond_facet.name = "letter_category" then (1 : ℚ) else 7/10) *
      b.bond_category.degree_of_association := by
    apply mul_nonneg _ h
    apply mul_nonneg <;> split_ifs <;> norm_num
  simp only [Bond.update_internal_strength, spec_internal_strength, beq_iff_eq]
  exact min100_eq_clamp _ hprod

/-- Witness for C3 at a concrete input: the successor bond between two
letters on the letter-category facet, with association degree 50. -/
theorem C3_internal_strength_witness :
    Bond.update_internal_strength bondAB =
      spec_internal_strength (bondAB.from_object.kind == bondAB.to_object.kind)
        (bondAB.bond_facet.name == "letter_category")
        bondAB.bond_category.degree_of_association :=
  C3_internal_strength_matches_spec bondAB (by norm_num [bondAB, Bond.init, successor_category])

/-- C1: the builder is all-or-nothing only in its losing half — every run
that returns normally breaks no structure and builds nothing — while the
winning half of the claim fails: the run `ctxAllWin`, which wins every
required fight, raises `NameError` on the unbound name `flip_object2`
before the break/build phase, so no winning run ever breaks a defeated
structure or builds the correspondence. -/
theorem C1_builder_all_or_nothing :
    (∀ (ctx : BuilderCtx) (eff : BuildEffects),
      builder_run ctx = Except.ok eff →
      eff.broken_structures = [] ∧ eff.built = false) ∧
    builder_run ctxAllWin = Except.error (PyExc.nameError "flip_object2") := by
  constructor
  · intro ctx eff h
    unfold builder_run at h
    by_cases h1 : (!ctx.object1_present) = true
    · rw [if_pos h1] at h
      injection h with h; subst h; exact ⟨rfl, rfl⟩
    rw [if_neg h1] at h
    by_cases h2 : (!ctx.object2_present) = true
    · rw [if_pos h2] at h; exact Except.noConfusion h
    rw [if_neg h2] at h
    cases hex : ctx.existing_correspondence with
    | some c =>
      rw [hex] at h
      injection h with h; subst h; exact ⟨rfl, rfl⟩
    | none =>
      rw [hex] at h
      by_cases h3 : (ctx.concept_mappings.any fun m => !m.relevant) = true
      · rw [if_pos h3] at h
        injection h with h; subst h; exact ⟨rfl, rfl⟩
      rw [if_neg h3] at h
      cases hfl : firstLostFight ctx.fights ctx.incompatible_correspondences.length with
      | some i =>
        rw [hfl] at h
        injection h with h; subst h; exact ⟨rfl, rfl⟩
      | none =>
        rw [hfl] at h
        by_cases h4 : (ctx.object1_at_edge && ctx.object2_at_edge) = true
        · rw [if_pos h4] at h
          cases hb : ctx.incompatible_bond with
          | none => rw [hb] at h; exact Except.noConfusion h
          | some bid =>
            rw [hb] at h
            by_cases h5 :
                (!ctx.fights.getD ctx.incompatible_correspondences.length false) = true
            · rw [if_pos h5] at h
              injection h with h; subst h; exact ⟨rfl, rfl⟩
            rw [if_neg h5] at h
            cases hg : ctx.incompatible_bond_group with
            | none => rw [hg] at h; exact Except.noConfusion h
            | some gid =>
              rw [hg] at h
              by_cases h6 :
                  (!ctx.fights.getD (ctx.incompatible_correspondences.length + 1) false) = true
              · rw [if_pos h6] at h
                injection h with h; subst h; exact ⟨rfl, rfl⟩
              rw [if_neg h6] at h
              exact Except.noConfusion h
        · rw [if_neg h4] at h
          exact Except.noConfusion h
  · rfl

/-- Witness for C1 at a concrete input: the run `ctxLoseFight` loses its
third fight and returns with nothing broken and nothing built. -/
theorem C1_builder_witness :
    fizzleAfterDelete.broken_structures = [] ∧ fizzleAfterDelete.built = false :=
  C1_builder_all_or_nothing.1 ctxLoseFight
    { fizzleAfterDelete with fights_performed := 3 } rfl

/-- C8: a builder run that finds an equivalent built correspondence merges
nothing: because line 117 tests presence of each mapping in the proposal
itself rather than in the existing correspondence, `mappings_to_add` is
always empty, so no new concept mapping is ever merged — against the
claim that exactly the missing mappings are merged.  The rest of the
claimed branch behavior does hold: it performs no fight, breaks nothing
and builds no duplicate. -/
theorem C8_merge_adds_nothing (ctx : BuilderCtx) (c : Nat) (eff : BuildEffects)
    (h1 : ctx.object1_present = true) (h2 : ctx.object2_present = true)
    (hex : ctx.existing_correspondence = some c)
    (heff : builder_run ctx = Except.ok eff) :
    eff.merged_into = some c ∧ eff.added_mappings = [] ∧
    eff.fights_performed = 0 ∧ eff.built = false ∧
    eff.broken_structures = [] := by
  have key : builder_run ctx = Except.ok
      { broken_structures := [], built := false, merged_into := some c,
        added_mappings := ctx.concept_mappings.filter
          (fun m => !(mapping_present ctx.concept_mappings m)),
        deleted_proposed := true, fights_performed := 0 } := by
    unfold builder_run
    rw [h1, h2, hex]
    rfl
  rw [key] at heff
  injection heff with heff
  subst heff
  refine ⟨rfl, ?_, rfl, rfl, rfl⟩
  simp only [List.filter_eq_nil_iff]
  intro m hm
  simp [mapping_present, List.any_eq_true]
  exact hm

/-- Witness for C8 at a concrete input: the run `ctxMerge` merges into
correspondence 1 and adds no mapping. -/
theorem C8_merge_witness :
    effMerge.merged_into = some 1 ∧ effMerge.added_mappings = [] ∧
    effMerge.fights_performed = 0 ∧ effMerge.built = false ∧
    effMerge.broken_structures = [] :=
  C8_merge_adds_nothing ctxMerge 1 effMerge rfl rfl rfl rfl

/-- C9: a correspondence scout whose two chosen objects differ on the
whole-string-span test fizzles: the bottom-up scout returns `None` at its
span check, and the important-object scout returns `None` at its span
check once its target object is chosen — in both cases before any
proposal is made or codelet posted. -/
theorem C9_span_mismatch_fizzles :
    (∀ ctx : ScoutCtx,
      ctx.object1_spans_whole_string ≠ ctx.object2_spans_whole_string →
      bottom_up_scout_run ctx = none) ∧
    (∀ (ctx : ImpCtx) (d1 : String),
      ctx.object1_description_descriptor = some d1 →
      (candidatesOf ctx.target_objects (applySlippages ctx.slippages d1)).isEmpty = false →
      ctx.object1_spans_whole_string ≠
        (chooseCandidate
          (candidatesOf ctx.target_objects (applySlippages ctx.slippages d1))
          ctx.chosen_index).spans_whole_string →
      important_object_scout_run ctx = Except.ok none) := by
  constructor
  · intro ctx hne
    have hb : (ctx.object1_spans_whole_string != ctx.object2_spans_whole_string) = true := by
      simp only [bne_iff_ne, ne_eq]
      exact hne
    unfold bottom_up_scout_run
    rw [if_pos hb]
  · intro ctx d1 hd hcand hne
    have hb : (ctx.object1_spans_whole_string !=
        (chooseCandidate
          (candidatesOf ctx.target_objects (applySlippages ctx.slippages d1))
          ctx.chosen_index).spans_whole_string) = true := by
      simp only [bne_iff_ne, ne_eq]
      exact hne
    unfold important_object_scout_run
    simp only [hd, hcand, Bool.false_eq_true, if_false, hb, if_true]

/-- Witness for C9 at concrete inputs: both scouts fizzle on a
whole-string-spanning first object paired with a non-spanning second. -/
theorem C9_span_mismatch_witness :
    bottom_up_scout_run scoutCtxMismatch = none ∧
    important_object_scout_run impCtxMismatch = Except.ok none :=
  ⟨C9_span_mismatch_fizzles.1 scoutCtxMismatch (by decide),
   C9_span_mismatch_fizzles.2 impCtxMismatch "leftmost" rfl rfl (by decide)⟩
